import Mathlib

/-!
Verification of the job-pipeline core of the rh-processing-ex-customers
repository. The Python sources under scrutiny are `pipeline_job_runner.py`,
`step3_openai_assistant.py`, `step4_render_hubspot_html.py`, `rate_limit.py`,
`jobs.py` and `utils_csv.py`. External HTTP calls (Trello, HubSpot, the
language-model service) are modelled as oracle functions returning
`Except String`, mirroring the try/except boundaries of the Python code;
`json.loads` outcomes are modelled as `Option Json` inputs. Real-valued
quantities of `rate_limit.py` (token counts, delays) are modelled over `ℚ`.
-/

namespace Spec2Proof

/-- Model of Python's `str.strip()`: drop leading and trailing whitespace
(ASCII whitespace; the Python original also strips rarer Unicode
whitespace, which never occurs in the texts at hand). -/
def pyStrip (s : String) : String :=
  ⟨((s.data.dropWhile Char.isWhitespace).reverse.dropWhile Char.isWhitespace).reverse⟩

/-- Model of Python's `str.lower()` (ASCII case folding). -/
def pyLower (s : String) : String :=
  ⟨s.data.map Char.toLower⟩

/-- Model of a parsed JSON value, the shape `json.loads` can return. -/
inductive Json where
  | null : Json
  | bool (b : Bool) : Json
  | num (n : Int) : Json
  | str (s : String) : Json
  | arr (items : List Json) : Json
  | obj (fields : List (String × Json)) : Json
deriving Repr, Inhabited

/-- Key membership test on a JSON object's field list, the model of
Python's `k in parsed` for a dict. -/
def hasKey (fields : List (String × Json)) (k : String) : Bool :=
  (fields.lookup k).isSome

/-- Model of `isinstance(x, dict)` on an optional JSON value
(`parsed.get(k)` yields `None` when the key is absent). -/
def isDictValue : Option Json → Bool
  | some (Json.obj _) => true
  | _ => false

/-- The required top-level keys of `_validate_schema_min` in
`step3_openai_assistant.py`, in source order. -/
def requiredKeys : List String :=
  ["summary", "successes", "challenges", "churn_reasons", "relationship_value",
   "next_best_actions", "open_questions_for_review", "red_flags"]

/-- Embeds `_validate_schema_min` from `step3_openai_assistant.py`: every
required top-level key must be present, and `summary` and
`relationship_value` must be nested objects. Returns the validity flag and
the error string of the first failing check. -/
def validate_schema_min (parsed : List (String × Json)) : Bool × String :=
  match requiredKeys.find? (fun k => !(hasKey parsed k)) with
  | some k => (false, "missing_key:" ++ k)
  | none =>
    if !(isDictValue (parsed.lookup "summary")) then (false, "summary_not_dict")
    else if !(isDictValue (parsed.lookup "relationship_value")) then
      (false, "relationship_value_not_dict")
    else (true, "")

/-- Embeds `_safe_json_loads` from `pipeline_job_runner.py`. Its argument is
the outcome of `json.loads` on the raw text (`none` when `json.loads`
raises); the function keeps the result only when it is a JSON object. -/
def safe_json_loads : Option Json → Option (List (String × Json))
  | some (Json.obj fields) => some fields
  | _ => none

/-- Python truthiness of the `parsed` value in the runner's step3:
`if not parsed:` fires on `None` and on an empty dict. -/
def dictTruthy : Option (List (String × Json)) → Bool
  | some fields => !fields.isEmpty
  | none => false

/-- A Trello card's metadata fields used by `build_trello_text`
(each `card.get(key, "")` defaults to the empty string). -/
structure TrelloCard where
  name : String := ""
  desc : String := ""
  url : String := ""
  dateLastActivity : String := ""
deriving Repr

/-- A Trello comment action: its ISO `date` and its `data.text`
(the empty string models an absent or non-string text). -/
structure TrelloAction where
  date : String := ""
  text : String := ""
deriving Repr

/-- One checklist item with its completion `state`. -/
structure TrelloCheckItem where
  name : String := ""
  state : String := ""
deriving Repr

/-- One checklist with its items. -/
structure TrelloChecklist where
  name : String := ""
  checkItems : List TrelloCheckItem := []
deriving Repr

/-- The bundle returned by `TrelloFetcher.fetch_card_bundle` in
`pipeline_job_runner.py`: card metadata, comment actions, checklists. -/
structure TrelloBundle where
  card : TrelloCard := {}
  actions : List TrelloAction := []
  checklists : List TrelloChecklist := []
deriving Repr

instance : Inhabited TrelloBundle := ⟨{}⟩

/-- The comment lines of `TrelloFetcher.build_trello_text`: one
`- [date] text` line per action whose stripped text is non-empty, appended
in the order the actions arrive (the source applies no sorting). -/
def trelloCommentLines (actions : List TrelloAction) : List String :=
  actions.foldl (fun acc a =>
    let txt := pyStrip a.text
    if txt = "" then acc else acc ++ ["- [" ++ a.date ++ "] " ++ txt]) []

/-- The checklist lines of `TrelloFetcher.build_trello_text`: a
`- Checklist:` header per checklist and an indented `[state] name` line per
item with a non-empty stripped name. -/
def trelloChecklistLines (checklists : List TrelloChecklist) : List String :=
  checklists.foldl (fun acc cl =>
    cl.checkItems.foldl (fun acc2 it =>
      let nm := pyStrip it.name
      if nm = "" then acc2 else acc2 ++ ["  - [" ++ pyStrip it.state ++ "] " ++ nm])
      (acc ++ ["- Checklist: " ++ pyStrip cl.name])) []

/-- Embeds `TrelloFetcher.build_trello_text` from `pipeline_job_runner.py`:
card header lines, optional description block, optional timestamped comment
block, optional checklist block, joined by newlines and stripped. -/
def build_trello_text (b : TrelloBundle) : String :=
  let parts : List String :=
    ["TRELLO_CARD:",
     "- Name: " ++ b.card.name,
     "- URL: " ++ b.card.url,
     "- LastActivity: " ++ b.card.dateLastActivity]
  let parts := if pyStrip b.card.desc = "" then parts
    else parts ++ ["", "TRELLO_DESC:", pyStrip b.card.desc]
  let parts := if b.actions.isEmpty then parts
    else parts ++ ["", "TRELLO_COMMENTS (timestamped):"] ++ trelloCommentLines b.actions
  let parts := if b.checklists.isEmpty then parts
    else parts ++ ["", "TRELLO_CHECKLISTS:"] ++ trelloChecklistLines b.checklists
  pyStrip (String.intercalate "\n" parts)

/-- The per-card delimiter wrapper of the runner's step1: each card's text
is framed by start/end markers naming the card id. -/
def cardBlock (tid txt : String) : String :=
  "===== TRELLO CARD START: " ++ tid ++ " =====\n" ++ txt ++
    "\n===== TRELLO CARD END: " ++ tid ++ " ====="

/-- The dates of the comment actions that produce a line in
`trelloCommentLines`, in emission order. -/
def emittedCommentDates (actions : List TrelloAction) : List String :=
  (actions.filter (fun a => !(pyStrip a.text = ""))).map TrelloAction.date

/-- The slice of `fetch_hubspot_bundle`'s result that the runner's control
flow consumes: the associated deal ids and the flattened `hubspot_text`. -/
structure HubSpotBundle where
  dealIds : List String := []
  hubspotText : String := ""
deriving Repr

/-- The summarization adapter's reply in the runner's step3: the raw text
returned and the `json.loads` outcome on it (`none` when parsing raises). -/
structure AssistantReply where
  raw : String := ""
  parsed : Option Json := none
deriving Repr

/-- The external calls the per-contact pipeline makes, as oracles: each
returns `Except.error` exactly when the corresponding Python call raises
(after its internal retries are exhausted). -/
structure Oracles where
  trello : String → Except String TrelloBundle
  hubspot : String → Except String HubSpotBundle
  assistant : String → Except String AssistantReply
  render : List (String × Json) → Except String String

/-- Boolean success test on an `Except` result. -/
def exceptOk {α : Type} : Except String α → Bool
  | Except.ok _ => true
  | Except.error _ => false

/-- The ok-payload of a Trello fetch result, defaulting to the empty
bundle; only used under a hypothesis that the fetch succeeded. -/
def getBundle : Except String TrelloBundle → TrelloBundle
  | Except.ok b => b
  | Except.error _ => {}

/-- The order-preserving de-duplication of the matched Trello ids in
`run_pipeline_job` (the `seen` set plus `uniq` list loop). -/
def dedupe (ids : List String) : List String :=
  ids.foldl (fun acc tid => if acc.contains tid then acc else acc ++ [tid]) []

/-- Everything one contact's run records: final status/step/message/error
of the contact state, the artifact file names written into the contact
directory (in write order), the delimited per-card blocks of step1, the
merged context text, and the contact's contributions to the job counters
(`done += doneInc`, `errors += errInc`, `duplicates += dupInc`). -/
structure ContactResult where
  status : String
  step : String
  lastMessage : String
  error : String
  artifacts : List String
  trelloBlocks : List String
  mergedContext : String
  errInc : Nat
  dupInc : Nat
  doneInc : Nat
deriving Repr, DecidableEq

/-- State threaded between the stage helpers of the per-contact run:
artifacts written so far, step1's blocks, the merged context, and the
duplicate-counter contribution decided at match time. -/
structure StepCtx where
  artifacts : List String
  blocks : List String
  merged : String
  dupInc : Nat
deriving Repr

/-- Step4 of `run_pipeline_job`: render the parsed object to HTML; on
success the contact is `done`, on failure it is `error` with message
`HTML render error` (and the error counter is incremented); either way the
job's `done` counter advances. -/
def step4Run (o : Oracles) (ctx : StepCtx) (fields : List (String × Json)) : ContactResult :=
  match o.render fields with
  | Except.ok _ =>
    { status := "done", step := "step4", lastMessage := "Fertig (bereit für Review)",
      error := "", artifacts := ctx.artifacts ++ ["step4_note.html", "step4_status.json"],
      trelloBlocks := ctx.blocks, mergedContext := ctx.merged,
      errInc := 0, dupInc := ctx.dupInc, doneInc := 1 }
  | Except.error e =>
    { status := "error", step := "step4", lastMessage := "HTML render error",
      error := e, artifacts := ctx.artifacts ++ ["step4_error.json"],
      trelloBlocks := ctx.blocks, mergedContext := ctx.merged,
      errInc := 1, dupInc := ctx.dupInc, doneInc := 1 }

/-- Step3 of `run_pipeline_job`: call the summarization adapter on the
merged context. If the call raises, the contact errors with message
`Assistant error` and only `step3_error.json` is written. If text comes
back, `step3_raw.txt` is always written; the text must then parse to a
non-empty JSON object (`_safe_json_loads` plus Python truthiness) or the
contact errors with message `Assistant error`. No `_validate_schema_min`
check occurs here. -/
def step3Run (o : Oracles) (ctx : StepCtx) (merged : String) : ContactResult :=
  match o.assistant merged with
  | Except.error e =>
    { status := "error", step := "step3", lastMessage := "Assistant error",
      error := e, artifacts := ctx.artifacts ++ ["step3_error.json"],
      trelloBlocks := ctx.blocks, mergedContext := ctx.merged,
      errInc := 1, dupInc := ctx.dupInc, doneInc := 1 }
  | Except.ok reply =>
    let arts := ctx.artifacts ++ ["step3_raw.txt"]
    match safe_json_loads reply.parsed with
    | some (f :: fs) =>
      step4Run o { ctx with artifacts := arts ++ ["step3_ai.json"] } (f :: fs)
    | _ =>
      { status := "error", step := "step3", lastMessage := "Assistant error",
        error := "Assistant output is not valid JSON",
        artifacts := arts ++ ["step3_error.json"],
        trelloBlocks := ctx.blocks, mergedContext := ctx.merged,
        errInc := 1, dupInc := ctx.dupInc, doneInc := 1 }

/-- Step2 of `run_pipeline_job`: fetch the HubSpot bundle for the contact;
on failure the contact errors with message `HubSpot fetch error`; on
success the merged context is the Trello text, two newlines, the HubSpot
text, stripped, and step3 runs. -/
def step2Run (o : Oracles) (ctx : StepCtx) (contactId trelloText : String) : ContactResult :=
  match o.hubspot contactId with
  | Except.error e =>
    { status := "error", step := "step2", lastMessage := "HubSpot fetch error",
      error := e, artifacts := ctx.artifacts ++ ["step2_error.json"],
      trelloBlocks := ctx.blocks, mergedContext := ctx.merged,
      errInc := 1, dupInc := ctx.dupInc, doneInc := 1 }
  | Except.ok hb =>
    let merged := pyStrip (trelloText ++ "\n\n" ++ hb.hubspotText)
    step3Run o
      { ctx with
        artifacts := ctx.artifacts ++
          ["step2_hubspot.json", "step2_hubspot_text.txt", "step2_merged_context.txt"],
        merged := merged } merged

/-- Step1's fetch-and-merge loop of `run_pipeline_job`: fetch every unique
card id, keep a delimited block per successful fetch, drop failed cards
(their errors are only collected). -/
def step1Blocks (o : Oracles) : List String → List String
  | [] => []
  | tid :: rest =>
    match o.trello tid with
    | Except.ok b => cardBlock tid (build_trello_text b) :: step1Blocks o rest
    | Except.error _ => step1Blocks o rest

/-- The per-contact body of `run_pipeline_job` in `pipeline_job_runner.py`:
match (zero ids is a terminal `no_trello_match` error, more than one id
raises the duplicate contribution to 1 but processing continues on all
ids), step1 fetch (error only when every card fails), then step2 to step4.
Every path contributes exactly 1 to the job's `done` counter. -/
def processContact (o : Oracles) (email contactId : String) (trelloIds : List String) :
    ContactResult :=
  let uniq := dedupe trelloIds
  if uniq.isEmpty then
    { status := "error", step := "step1", lastMessage := "Kein Trello-Match",
      error := "no_trello_match", artifacts := ["meta.json", "step1_match.json"],
      trelloBlocks := [], mergedContext := "", errInc := 1, dupInc := 0, doneInc := 1 }
  else
    let dupInc := if 1 < uniq.length then 1 else 0
    let blocks := step1Blocks o uniq
    if blocks.isEmpty then
      { status := "error", step := "step1", lastMessage := "Trello fetch error",
        error := "Trello fetch failed for all cards",
        artifacts := ["meta.json", "step1_match.json", "step1_error.json"],
        trelloBlocks := [], mergedContext := "", errInc := 1, dupInc := dupInc, doneInc := 1 }
    else
      step2Run o
        { artifacts := ["meta.json", "step1_match.json", "step1_trello_cards.json",
                        "step1_trello_errors.json", "step1_trello_text.txt",
                        "step1_trello.json"],
          blocks := blocks, merged := "", dupInc := dupInc }
        contactId (String.intercalate "\n\n" blocks)

/-- Embeds `normalize_email` from `utils_csv.py`: strip then lowercase. -/
def normalize_email (s : String) : String := pyLower (pyStrip s)

/-- One row of the first spreadsheet, reduced to the two mapped columns
(`csv1_email_col`, `csv1_hubspot_id_col`). -/
structure CsvRow where
  email : String
  hubspotId : String
deriving Repr, DecidableEq

/-- One row of the second spreadsheet, reduced to the two mapped columns
(`csv2_email_col`, `csv2_trello_id_col`). -/
structure Csv2Row where
  email : String
  trelloId : String
deriving Repr, DecidableEq

/-- The counting/processing condition of `run_pipeline_job` on a csv1
row: both the normalized email and the stripped contact id are non-empty
(Python truthiness of the two strings). -/
def rowCounted (r : CsvRow) : Bool :=
  decide (¬(normalize_email r.email = "" ∨ pyStrip r.hubspotId = ""))

/-- The rows `run_pipeline_job` actually processes, with their normalized
email and stripped contact id; the same condition computes the job's
`total` counter. -/
def countedRows (rows : List CsvRow) : List (String × String) :=
  rows.filterMap (fun r =>
    let em := normalize_email r.email
    let cid := pyStrip r.hubspotId
    if em = "" ∨ cid = "" then none else some (em, cid))

/-- One append into the `email_to_trello` mapping, the model of
`dict.setdefault(em, []).append(tid)`. -/
def addTrelloId (m : List (String × List String)) (em tid : String) :
    List (String × List String) :=
  match m.lookup em with
  | some _ => m.map (fun p => if p.1 = em then (p.1, p.2 ++ [tid]) else p)
  | none => m ++ [(em, [tid])]

/-- The `email_to_trello` index built from csv2 in `run_pipeline_job`:
rows with an empty normalized email or an empty stripped id are skipped. -/
def buildEmailToTrello (rows : List Csv2Row) : List (String × List String) :=
  rows.foldl (fun m r =>
    let em := normalize_email r.email
    let tid := pyStrip r.trelloId
    if em = "" ∨ tid = "" then m else addTrelloId m em tid) []

/-- Lookup of a contact's matched Trello ids (`email_to_trello.get(email, [])`). -/
def lookupTrelloIds (m : List (String × List String)) (em : String) : List String :=
  (m.lookup em).getD []

/-- One progress event of `JobStore.set_progress`, carrying the job's four
counters. -/
structure Progress where
  total : Nat
  done : Nat
  errors : Nat
  duplicates : Nat
deriving Repr, DecidableEq

/-- The runner's accumulator across contacts: the three mutable counters,
the progress events emitted so far, and the per-contact results. -/
structure RunnerAcc where
  done : Nat
  errors : Nat
  duplicates : Nat
  emissions : List Progress
  contacts : List (String × ContactResult)
deriving Repr

/-- One iteration of the contact loop of `run_pipeline_job`: process the
contact; in the multiple-match branch a progress event is emitted as soon
as the duplicate counter is incremented, and a progress event is always
emitted when the contact concludes. -/
def stepRunner (o : Oracles) (emailMap : List (String × List String)) (total : Nat)
    (acc : RunnerAcc) (row : String × String) : RunnerAcc :=
  let res := processContact o row.1 row.2 (lookupTrelloIds emailMap row.1)
  let dups := acc.duplicates + res.dupInc
  let mids : List Progress :=
    if res.dupInc = 1 then [⟨total, acc.done, acc.errors, dups⟩] else []
  let done := acc.done + res.doneInc
  let errs := acc.errors + res.errInc
  { done := done, errors := errs, duplicates := dups,
    emissions := acc.emissions ++ mids ++ [⟨total, done, errs, dups⟩],
    contacts := acc.contacts ++ [(row.2, res)] }

/-- The observable outcome of one `run_pipeline_job` run: every progress
event in emission order, the per-contact results keyed by contact id, the
final progress counters and the final job status. -/
structure JobTrace where
  emissions : List Progress
  contacts : List (String × ContactResult)
  finalProgress : Progress
  finalStatus : String
deriving Repr

/-- Embeds the driver loop of `run_pipeline_job` in
`pipeline_job_runner.py`: build the csv2 email index, count the qualifying
csv1 rows into `total`, emit the initial progress event, process each
qualifying row in order, and finish with status `done`. -/
def run_pipeline_job (o : Oracles) (rows1 : List CsvRow) (rows2 : List Csv2Row) : JobTrace :=
  let emailMap := buildEmailToTrello rows2
  let counted := countedRows rows1
  let total := counted.length
  let start : RunnerAcc := ⟨0, 0, 0, [⟨total, 0, 0, 0⟩], []⟩
  let fin := counted.foldl (stepRunner o emailMap total) start
  { emissions := fin.emissions, contacts := fin.contacts,
    finalProgress := ⟨total, fin.done, fin.errors, fin.duplicates⟩,
    finalStatus := "done" }

/-- The invariant claimed for every emitted progress event. -/
def progressOk (p : Progress) : Prop :=
  p.errors ≤ p.done ∧ p.done ≤ p.total ∧ p.duplicates ≤ p.total

instance (p : Progress) : Decidable (progressOk p) := by
  unfold progressOk; infer_instance

/-- Embeds `RateLimitConfig` from `rate_limit.py` over exact rationals
(tokens per second and burst capacity). -/
structure RateLimitConfig where
  rate : ℚ
  burst : ℚ
deriving Repr, DecidableEq

/-- The lazy refill of `TokenBucketLimiter.acquire`: tokens grow by
elapsed time times the rate, capped at the burst capacity. -/
def refill (cfg : RateLimitConfig) (tokens elapsed : ℚ) : ℚ :=
  min cfg.burst (tokens + elapsed * cfg.rate)

/-- The requested sleep when the bucket is short: `(cost - tokens) / rate`
when the rate is positive, else one second. -/
def neededSleep (cfg : RateLimitConfig) (tokens cost : ℚ) : ℚ :=
  if 0 < cfg.rate then (cost - tokens) / cfg.rate else 1

/-- The sleep actually requested: the need under a 10 ms floor
(`max(0.01, need)`). -/
def sleepFloor (cfg : RateLimitConfig) (tokens cost : ℚ) : ℚ :=
  max (1 / 100) (neededSleep cfg tokens cost)

/-- Embeds the `while True` loop of `TokenBucketLimiter.acquire` as a step
relation over the list of elapsed wall-clock durations observed at each
iteration: refill, then either succeed (returning the remaining tokens) or
loop. `none` means the loop has not succeeded within the given trace, so
`acquire` is still blocked. -/
def acquireRun (cfg : RateLimitConfig) (cost : ℚ) : ℚ → List ℚ → Option ℚ
  | _, [] => none
  | tokens, e :: es =>
    let t := refill cfg tokens e
    if cost ≤ t then some (t - cost) else acquireRun cfg cost t es

/-- The deterministic part of `compute_backoff` in `rate_limit.py`:
`min(max_s, base * 2 ** attempt)`. -/
def computeBackoffRaw (attempt : Nat) (base maxS : ℚ) : ℚ :=
  min maxS (base * 2 ^ attempt)

/-- The jitter `random.uniform(0, raw * 0.25)`, modelled as `u * (raw * 0.25)`
for a uniform sample `u` in `[0, 1]`. -/
def uniformJitter (u raw : ℚ) : ℚ := u * (raw * (25 / 100))

/-- Embeds `compute_backoff` from `rate_limit.py`: the capped exponential
delay plus the jitter drawn from `[0, 25%]` of it. -/
def compute_backoff (attempt : Nat) (base maxS u : ℚ) : ℚ :=
  computeBackoffRaw attempt base maxS + uniformJitter u (computeBackoffRaw attempt base maxS)

/-- An adapter invocation made by a stage re-run entry point. -/
inductive AdapterCall where
  | render (payload : List (String × Json)) : AdapterCall
  | summarize (ctx : String) : AdapterCall
deriving Repr

/-- The outcome of `rerun_step4_from_local_ai`: the returned ok/error pair,
the artifact files written into the contact directory, and the adapter
calls made. -/
structure RerunResult where
  ok : Bool
  error : String
  step4HtmlPath : String
  writes : List String
  calls : List AdapterCall
deriving Repr

/-- Embeds `_safe_read_json` from `step4_render_hubspot_html.py`: the
field list of the parsed object, or the empty dict when the file is
missing, unreadable, unparseable or not an object. -/
def safe_read_json : Option Json → List (String × Json)
  | some (Json.obj fields) => fields
  | _ => []

/-- The field names of the frozen dataclass `OpenAIConfig` in `config.py`,
the object `load_config` hands to the stage re-run entry points. Neither
`step4_render_model` nor `model` is among them. -/
def openAIConfigAttrs : List String :=
  ["api_key", "assistant_id", "poll_interval_seconds", "max_poll_seconds",
   "max_retries", "backoff_base_seconds"]

/-- The model-resolution line of `rerun_step4_from_local_ai`
(`step4_render_hubspot_html.py` line 217):
`(render_model or oa_cfg.step4_render_model or oa_cfg.model or "").strip()`
followed by the `gpt-4o-mini` last-resort default. When `render_model` is
truthy the `or` chain short-circuits and the call resolves; when it is
`None` or empty, Python evaluates `oa_cfg.step4_render_model`, an
attribute `OpenAIConfig` does not define (see `openAIConfigAttrs`), and
raises `AttributeError`. -/
def resolveRenderModel (renderModel : Option String) : Except String String :=
  let rmTruthy : Bool :=
    match renderModel with
    | some m => !(m == "")
    | none => false
  if rmTruthy then
    let s := pyStrip (renderModel.getD "")
    Except.ok (if s = "" then "gpt-4o-mini" else s)
  else
    Except.error "AttributeError: OpenAIConfig has no attribute step4_render_model"

/-- Embeds `rerun_step4_from_local_ai` from `step4_render_hubspot_html.py`.
`dirExists` models the `os.path.isdir` guard; `renderModel` is the
`render_model` argument (`none` in the repository's only call site);
`step3Ai` is the `json.loads` outcome on `step3_ai.json` and
`step3RawParsed` the outcome on `step3_raw.txt` (used only as fallback
when the former yields no non-empty object). After the directory guard
the function resolves the render model; a falsy `renderModel` raises
`AttributeError` there (`Except.error`), outside every try/except, so
nothing is read, no adapter is called and no artifact (not even an error
artifact) is written. Otherwise the function calls only the render
adapter; on success it writes `step4_note.html` and the audit file
`step4_rerun_meta.json`, on render failure it writes
`step4_failed_render.json`. -/
def rerun_step4_from_local_ai (dirExists : Bool) (renderModel : Option String)
    (render : List (String × Json) → Except String String)
    (step3Ai step3RawParsed : Option Json) : Except String RerunResult :=
  if !dirExists then
    Except.ok
      { ok := false
        error := "contact_dir_not_found"
        step4HtmlPath := ""
        writes := []
        calls := [] }
  else
    match resolveRenderModel renderModel with
    | Except.error e => Except.error e
    | Except.ok _ =>
      let payload := safe_read_json step3Ai
      let payload := if payload.isEmpty then (safe_json_loads step3RawParsed).getD [] else payload
      if payload.isEmpty then
        Except.ok
          { ok := false
            error := "missing_step3_ai"
            step4HtmlPath := ""
            writes := []
            calls := [] }
      else
        match render payload with
        | Except.ok _ =>
          Except.ok
            { ok := true
              error := ""
              step4HtmlPath := "step4_note.html"
              writes := ["step4_note.html", "step4_rerun_meta.json"]
              calls := [AdapterCall.render payload] }
        | Except.error e =>
          Except.ok
            { ok := false
              error := e
              step4HtmlPath := ""
              writes := ["step4_failed_render.json"]
              calls := [AdapterCall.render payload] }

/-- The parameter names (besides `self`) of `HubSpotWriteClient.__init__`
as defined in `pipeline_job_runner.py` (the module-local class the name
resolves to inside `push_verified_to_hubspot`). -/
def hubSpotWriteClientParams : List String := ["cfg"]

/-- The keyword arguments `push_verified_to_hubspot` passes to the
`HubSpotWriteClient` constructor. -/
def pushVerifiedKwargs : List String := ["note_to_contact_type_id", "note_to_deal_type_id"]

/-- The keyword arguments of a call that name no parameter of the callee,
each of which makes Python raise `TypeError` at call time. -/
def unexpectedKwargs (params kwargs : List String) : List String :=
  kwargs.filter (fun k => !(params.contains k))

/-- A contact's snapshot fields consulted by the batched write-back loop. -/
structure ContactSnap where
  verified : Bool := false
  status : String := ""
deriving Repr, DecidableEq

/-- The aggregate result the batched write-back is supposed to return. -/
structure PushResults where
  created : Nat
  errors : Nat
  details : List (String × String)
deriving Repr, DecidableEq

/-- The methods actually defined on the module-local `HubSpotWriteClient`
in `pipeline_job_runner.py`. -/
def writeClientMethods : List String :=
  ["create_note_html", "associate_note_to_contact", "associate_note_to_deal"]

/-- Embeds `push_verified_to_hubspot` from `pipeline_job_runner.py`. The
writer construction passes the keyword arguments of `pushVerifiedKwargs`
to a constructor accepting only `hubSpotWriteClientParams`, so Python
raises `TypeError` before the contact loop; were construction to succeed,
the loop would look up `create_note_html_with_associations`, a method the
module-local class does not define, so every eligible contact would record
an `AttributeError` in the per-contact except clause. -/
def push_verified_to_hubspot (snapshot : List (String × ContactSnap)) :
    Except String PushResults :=
  match unexpectedKwargs hubSpotWriteClientParams pushVerifiedKwargs with
  | k :: _ => Except.error ("TypeError: __init__ got an unexpected keyword argument " ++ k)
  | [] =>
    Except.ok <| snapshot.foldl (fun acc p =>
      if p.2.verified && p.2.status == "done" then
        if writeClientMethods.contains "create_note_html_with_associations" then
          { acc with
            created := acc.created + 1
            details := acc.details ++ [(p.1, "note written")] }
        else
          { acc with
            errors := acc.errors + 1
            details := acc.details ++
              [(p.1, "AttributeError: create_note_html_with_associations")] }
      else acc) ⟨0, 0, []⟩

/-- Lexicographic order on character lists by code point, used to speak
about timestamp order of ISO-8601 strings. -/
def charListLe : List Char → List Char → Bool
  | [], _ => true
  | _ :: _, [] => false
  | a :: as, b :: bs =>
    if a.val < b.val then true
    else if b.val < a.val then false
    else charListLe as bs

/-- String order by code points (agrees with chronological order on
ISO-8601 timestamps). -/
def strLe (a b : String) : Bool := charListLe a.data b.data

/-- Whether a list of timestamp strings is in ascending (oldest-first)
order. -/
def chronological : List String → Bool
  | [] => true
  | [_] => true
  | a :: b :: rest => strLe a b && chronological (b :: rest)

/-- Oracles where every external call fails, for concrete witnesses. -/
def oraclesDown : Oracles :=
  { trello := fun _ => Except.error "down"
    hubspot := fun _ => Except.error "down"
    assistant := fun _ => Except.error "down"
    render := fun _ => Except.error "down" }

/-- An assistant reply whose text parses to a non-empty JSON object. -/
def replyOk : AssistantReply :=
  { raw := "\x7b \"summary\": \x7b\x7d \x7d", parsed := some (Json.obj [("summary", Json.obj [])]) }

/-- Oracles where every external call succeeds, for concrete witnesses. -/
def oraclesOk : Oracles :=
  { trello := fun _ => Except.ok {}
    hubspot := fun _ => Except.ok {}
    assistant := fun _ => Except.ok replyOk
    render := fun _ => Except.ok "<p>x</p>" }

/-- A single qualifying csv1 row, for concrete witnesses. -/
def rows1Ex : List CsvRow := [{ email := "a", hubspotId := "1" }]

/-- Two comment actions delivered newest-first, as the Trello actions
endpoint does by default: the failing input for the comment-order claim. -/
def c3Actions : List TrelloAction :=
  [{ date := "2024-02-01T00:00:00Z", text := "later comment" },
   { date := "2024-01-01T00:00:00Z", text := "earlier comment" }]

/-- An assistant reply whose text parses to the JSON object with the single
field `summary: 1`: a non-empty object that fails `_validate_schema_min`
(missing keys, `summary` not a dict). -/
def c1Reply : AssistantReply :=
  { raw := "\x7b \"summary\": 1 \x7d", parsed := some (Json.obj [("summary", Json.num 1)]) }

/-- Oracles delivering `c1Reply` from the summarization adapter and
succeeding everywhere else. -/
def c1Oracles : Oracles :=
  { trello := fun _ => Except.ok {}
    hubspot := fun _ => Except.ok {}
    assistant := fun _ => Except.ok c1Reply
    render := fun _ => Except.ok "<p>x</p>" }

/-- A field list passing `_validate_schema_min`: all required keys present,
`summary` and `relationship_value` nested objects. -/
def validFields : List (String × Json) :=
  [("summary", Json.obj []), ("successes", Json.arr []), ("challenges", Json.arr []),
   ("churn_reasons", Json.arr []), ("relationship_value", Json.obj []),
   ("next_best_actions", Json.arr []), ("open_questions_for_review", Json.arr []),
   ("red_flags", Json.arr [])]

/-- A render adapter that always succeeds, for concrete witnesses. -/
def renderOk : List (String × Json) → Except String String :=
  fun _ => Except.ok "<p>x</p>"

/-- The step4 helper always reports step `step4`, whether the render call
succeeds or fails. -/
theorem step4Run_step (o : Oracles) (ctx : StepCtx) (fields : List (String × Json)) :
    (step4Run o ctx fields).step = "step4" := by
  cases h : o.render fields <;> simp [step4Run, h]

/-- Every branch of the step4 helper contributes exactly one `done`, at
most one error and passes the duplicate contribution through. -/
theorem step4Run_incs (o : Oracles) (ctx : StepCtx) (fields : List (String × Json)) :
    (step4Run o ctx fields).doneInc = 1 ∧ (step4Run o ctx fields).errInc ≤ 1 ∧
      (step4Run o ctx fields).dupInc = ctx.dupInc := by
  cases h : o.render fields <;> simp [step4Run, h]

/-- Every branch of the step3 helper contributes exactly one `done`, at
most one error and passes the duplicate contribution through. -/
theorem step3Run_incs (o : Oracles) (ctx : StepCtx) (m : String) :
    (step3Run o ctx m).doneInc = 1 ∧ (step3Run o ctx m).errInc ≤ 1 ∧
      (step3Run o ctx m).dupInc = ctx.dupInc := by
  cases h : o.assistant m with
  | error e => simp [step3Run, h]
  | ok reply =>
    cases hp : safe_json_loads reply.parsed with
    | none => simp [step3Run, h, hp]
    | some fields =>
      cases fields with
      | nil => simp [step3Run, h, hp]
      | cons f fs => simpa [step3Run, h, hp] using step4Run_incs o _ (f :: fs)

/-- Every branch of the step2 helper contributes exactly one `done`, at
most one error and passes the duplicate contribution through. -/
theorem step2Run_incs (o : Oracles) (ctx : StepCtx) (cid tt : String) :
    (step2Run o ctx cid tt).doneInc = 1 ∧ (step2Run o ctx cid tt).errInc ≤ 1 ∧
      (step2Run o ctx cid tt).dupInc = ctx.dupInc := by
  cases h : o.hubspot cid with
  | error e => simp [step2Run, h]
  | ok hb => simpa [step2Run, h] using step3Run_incs o _ _

/-- Every per-contact run contributes exactly one `done` and at most one
error and at most one duplicate to the job counters, whatever the oracle
outcomes. -/
theorem processContact_incs (o : Oracles) (em cid : String) (tids : List String) :
    (processContact o em cid tids).doneInc = 1 ∧
      (processContact o em cid tids).errInc ≤ 1 ∧
      (processContact o em cid tids).dupInc ≤ 1 := by
  unfold processContact
  by_cases h0 : (dedupe tids).isEmpty
  · simp [h0]
  · simp only [h0, Bool.false_eq_true, if_false]
    by_cases h1 : (step1Blocks o (dedupe tids)).isEmpty
    · by_cases h2 : 1 < (dedupe tids).length <;> simp [h1, h2]
    · have h3 := step2Run_incs o
        { artifacts := ["meta.json", "step1_match.json", "step1_trello_cards.json",
                        "step1_trello_errors.json", "step1_trello_text.txt",
                        "step1_trello.json"],
          blocks := step1Blocks o (dedupe tids), merged := "",
          dupInc := if 1 < (dedupe tids).length then 1 else 0 }
        cid (String.intercalate "\n\n" (step1Blocks o (dedupe tids)))
      have h4 : (if 1 < (dedupe tids).length then 1 else 0) ≤ 1 := by
        split <;> norm_num
      simp only [h1, Bool.false_eq_true, if_false]
      exact ⟨h3.1, h3.2.1, by rw [h3.2.2]; exact h4⟩

/-- Claim C2 (code bug): for every job snapshot, the batched write-back
trigger `push_verified_to_hubspot` does not reach its contact loop at all:
the `HubSpotWriteClient` constructor of `pipeline_job_runner.py` accepts
only `cfg`, while the call passes the keyword arguments
`note_to_contact_type_id` and `note_to_deal_type_id`, so Python raises
`TypeError` before any contact is attempted and no aggregate result is
ever returned (the claimed iteration, per-contact independence and
success/failure counts therefore never happen). -/
theorem c2_push_verified_type_error (snapshot : List (String × ContactSnap)) :
    push_verified_to_hubspot snapshot =
      Except.error
        "TypeError: __init__ got an unexpected keyword argument note_to_contact_type_id" :=
  rfl

/-- Claim C3 (code bug): on a bundle whose comment actions arrive
newest-first, the comment block of `TrelloFetcher.build_trello_text` keeps
that order: the emitted dates are not oldest-first (while their reversal
is), so the claimed chronological order fails for this service-returned
order. The sibling `_build_trello_text` in `step1_trello_fetch.py` sorts
the actions by date before emitting, which is the behaviour the spec
describes. -/
theorem c3_comment_lines_unsorted :
    trelloCommentLines c3Actions =
      ["- [2024-02-01T00:00:00Z] later comment", "- [2024-01-01T00:00:00Z] earlier comment"]
    ∧ emittedCommentDates c3Actions = ["2024-02-01T00:00:00Z", "2024-01-01T00:00:00Z"]
    ∧ chronological (emittedCommentDates c3Actions) = false
    ∧ chronological (emittedCommentDates c3Actions).reverse = true
    ∧ build_trello_text { actions := c3Actions } =
        "TRELLO_CARD:\n- Name: \n- URL: \n- LastActivity: \n\nTRELLO_COMMENTS (timestamped):\n- [2024-02-01T00:00:00Z] later comment\n- [2024-01-01T00:00:00Z] earlier comment" := by
  refine ⟨rfl, rfl, by decide, by decide, rfl⟩

/-- Claim C5: a contact whose email matched zero Trello ids ends in status
`error` with error `no_trello_match` at step `step1`, gets only the match
artifacts written (no step2/3/4 artifact, so no later stage runs), and
still contributes exactly one `done` (and one error, no duplicate) to the
job counters. -/
theorem c5_no_match_terminal_error (o : Oracles) (em cid : String) (tids : List String)
    (h : dedupe tids = []) :
    processContact o em cid tids =
      { status := "error", step := "step1", lastMessage := "Kein Trello-Match",
        error := "no_trello_match", artifacts := ["meta.json", "step1_match.json"],
        trelloBlocks := [], mergedContext := "", errInc := 1, dupInc := 0, doneInc := 1 } := by
  simp [processContact, h]

/-- Witness for C5 at the concrete empty match list. -/
theorem c5_no_match_terminal_error_witness :
    dedupe [] = [] ∧
      (processContact oraclesDown "a" "c" []).status = "error" ∧
      (processContact oraclesDown "a" "c" []).error = "no_trello_match" ∧
      (processContact oraclesDown "a" "c" []).step = "step1" ∧
      (processContact oraclesDown "a" "c" []).doneInc = 1 := by
  have h := c5_no_match_terminal_error oraclesDown "a" "c" [] rfl
  exact ⟨rfl, by rw [h], by rw [h], by rw [h], by rw [h]⟩

/-- Claim C1, counterexample: the assistant returns text parsing to the
non-empty JSON object with single field `summary: 1`. `_validate_schema_min`
rejects it (`.1 = false`), yet the runner's step3 does not error: the
contact proceeds through step4 to status `done` and its message is never
`Assistant error`. So the runner's step3 does not perform the claimed
schema validation, refuting the claimed equivalence between schema failure
and the error transition. -/
theorem c1_counterexample :
    (validate_schema_min [("summary", Json.num 1)]).1 = false
    ∧ (processContact c1Oracles "a" "c" ["t1"]).status = "done"
    ∧ (processContact c1Oracles "a" "c" ["t1"]).step = "step4"
    ∧ ¬((processContact c1Oracles "a" "c" ["t1"]).lastMessage = "Assistant error") := by
  refine ⟨rfl, by decide, by decide, by decide⟩

/-- Claim C1 as amended: in the runner's step3 the contact transitions to
`error` at step3 exactly when the summarization call raises or the
returned text fails to parse into a non-empty JSON object (no
`_validate_schema_min` check is involved), and whenever the adapter does
return text, the raw text artifact `step3_raw.txt` is persisted. -/
theorem c1_step3_parse_only (o : Oracles) (ctx : StepCtx) (m : String) :
    (((step3Run o ctx m).status = "error" ∧ (step3Run o ctx m).step = "step3") ↔
      (exceptOk (o.assistant m) = false ∨
        ∃ reply, o.assistant m = Except.ok reply ∧
          dictTruthy (safe_json_loads reply.parsed) = false))
    ∧ (∀ reply, o.assistant m = Except.ok reply →
        "step3_raw.txt" ∈ (step3Run o ctx m).artifacts) := by
  cases h : o.assistant m with
  | error e =>
    refine ⟨?_, ?_⟩
    · simp [step3Run, h, exceptOk]
    · intro reply hreply
      exact absurd hreply (by simp)
  | ok reply =>
    refine ⟨?_, ?_⟩
    · cases hp : safe_json_loads reply.parsed with
      | none => simp [step3Run, h, hp, exceptOk, dictTruthy]
      | some fields =>
        cases fields with
        | nil => simp [step3Run, h, hp, exceptOk, dictTruthy]
        | cons f fs =>
          have hstep := step4Run_step o
            { ctx with artifacts := ctx.artifacts ++ ["step3_raw.txt", "step3_ai.json"] }
            (f :: fs)
          simp [step3Run, h, hp, exceptOk, dictTruthy, hstep]
    · intro reply2 hr2
      have hrep : reply = reply2 := by injection hr2
      subst hrep
      cases hp : safe_json_loads reply.parsed with
      | none => simp [step3Run, h, hp]
      | some fields =>
        cases fields with
        | nil => simp [step3Run, h, hp]
        | cons f fs =>
          cases hrr : o.render (f :: fs) <;>
            simp [step3Run, h, hp, step4Run, hrr]

/-- Witness for the amended C1: the assistant reply of the counterexample
oracles makes step3 persist the raw text. -/
theorem c1_step3_parse_only_witness :
    "step3_raw.txt" ∈ (step3Run c1Oracles ⟨[], [], "", 0⟩ "m").artifacts :=
  (c1_step3_parse_only c1Oracles ⟨[], [], "", 0⟩ "m").2 c1Reply rfl

/-- A truthy parse result is a non-empty field list. -/
theorem dictTruthy_elim {p : Option Json}
    (h : dictTruthy (safe_json_loads p) = true) :
    ∃ f fs, safe_json_loads p = some (f :: fs) := by
  cases hp : safe_json_loads p with
  | none => rw [hp] at h; simp [dictTruthy] at h
  | some fields =>
    cases fields with
    | nil => rw [hp] at h; simp [dictTruthy] at h
    | cons f fs => exact ⟨f, fs, rfl⟩

/-- When every card fetch succeeds, step1 produces one delimited block per
unique card id, in order, wrapping that card's flattened text. -/
theorem step1Blocks_all_ok (o : Oracles) (l : List String)
    (h : ∀ tid ∈ l, exceptOk (o.trello tid) = true) :
    step1Blocks o l =
      l.map (fun tid => cardBlock tid (build_trello_text (getBundle (o.trello tid)))) := by
  induction l with
  | nil => rfl
  | cons hd tl ih =>
    have hhd := h hd (by simp)
    have htl : ∀ tid ∈ tl, exceptOk (o.trello tid) = true :=
      fun tid ht => h tid (by simp [ht])
    cases hres : o.trello hd with
    | error e => rw [hres] at hhd; simp [exceptOk] at hhd
    | ok b => simp [step1Blocks, hres, getBundle, ih htl]

/-- Claim C4: a contact matched to more than one distinct Trello id, on a
run where every card fetch and every later stage succeeds, yields exactly
one delimited board-card block per unique id (each block framed by
start/end markers naming its card id, in match order), contributes exactly
1 to the duplicate counter, and still runs through step4 to status `done`
(contributing its one `done` increment). -/
theorem c4_duplicates_processed (o : Oracles) (em cid : String) (tids : List String)
    (hlen : 1 < (dedupe tids).length)
    (hfetch : ∀ tid ∈ dedupe tids, exceptOk (o.trello tid) = true)
    (hhs : exceptOk (o.hubspot cid) = true)
    (hasst : ∀ s, ∃ reply, o.assistant s = Except.ok reply ∧
        dictTruthy (safe_json_loads reply.parsed) = true)
    (hrender : ∀ fields, exceptOk (o.render fields) = true) :
    (processContact o em cid tids).trelloBlocks =
      (dedupe tids).map
        (fun tid => cardBlock tid (build_trello_text (getBundle (o.trello tid))))
    ∧ (processContact o em cid tids).trelloBlocks.length = (dedupe tids).length
    ∧ (processContact o em cid tids).dupInc = 1
    ∧ (processContact o em cid tids).status = "done"
    ∧ (processContact o em cid tids).step = "step4"
    ∧ (processContact o em cid tids).doneInc = 1 := by
  rcases hd : dedupe tids with _ | ⟨t0, trest⟩
  · rw [hd] at hlen; simp at hlen
  rw [hd] at hfetch hlen
  have hblocks : step1Blocks o (t0 :: trest) =
      (t0 :: trest).map
        (fun tid => cardBlock tid (build_trello_text (getBundle (o.trello tid)))) :=
    step1Blocks_all_ok o _ hfetch
  have hbne : (step1Blocks o (t0 :: trest)).isEmpty = false := by
    rw [hblocks]; rfl
  have htr : 0 < trest.length := by simpa using hlen
  have hres : processContact o em cid tids =
      step2Run o
        { artifacts := ["meta.json", "step1_match.json", "step1_trello_cards.json",
                        "step1_trello_errors.json", "step1_trello_text.txt",
                        "step1_trello.json"],
          blocks := step1Blocks o (t0 :: trest), merged := "",
          dupInc := 1 }
        cid (String.intercalate "\n\n" (step1Blocks o (t0 :: trest))) := by
    simp [processContact, hd, hbne, htr]
  cases hhs2 : o.hubspot cid with
  | error e => rw [hhs2] at hhs; simp [exceptOk] at hhs
  | ok hb =>
    obtain ⟨reply, hok, htruthy⟩ :=
      hasst (pyStrip (String.intercalate "\n\n" (step1Blocks o (t0 :: trest)) ++
        "\n\n" ++ hb.hubspotText))
    obtain ⟨f, fs, hp⟩ := dictTruthy_elim htruthy
    cases hrr : o.render (f :: fs) with
    | error e => have := hrender (f :: fs); rw [hrr] at this; simp [exceptOk] at this
    | ok html =>
      rw [hres]
      simp only [step2Run, hhs2]
      simp only [step3Run, hok, hp]
      simp only [step4Run, hrr]
      refine ⟨?_, ?_, ?_, ?_, ?_, ?_⟩ <;> simp [hblocks]

/-- Witness for C4 at two concrete distinct card ids with all-succeeding
oracles. -/
theorem c4_duplicates_processed_witness :
    1 < (dedupe ["t1", "t2"]).length
    ∧ (processContact oraclesOk "a" "c" ["t1", "t2"]).status = "done"
    ∧ (processContact oraclesOk "a" "c" ["t1", "t2"]).dupInc = 1 := by
  have h := c4_duplicates_processed oraclesOk "a" "c" ["t1", "t2"]
    (by decide) (by decide) (by decide)
    (fun s => ⟨replyOk, rfl, rfl⟩) (fun fields => rfl)
  exact ⟨by decide, h.2.2.2.1, h.2.2.1⟩

/-- A field list passing `_validate_schema_min` is non-empty (the key
`summary` must be present). -/
theorem validate_schema_min_nonempty {fields : List (String × Json)}
    (h : (validate_schema_min fields).1 = true) : fields.isEmpty = false := by
  cases fields with
  | nil => exact absurd h (by decide)
  | cons f fs => rfl

/-- Claim C6 (code bug): every default-argument re-run of step4 — the
form of the repository's only call site, `rerun_step4_from_local_ai
(entry.contact_dir)` in `ui/routes_contact.py` — raises `AttributeError`
while resolving the render model, because `OpenAIConfig` in `config.py`
defines neither `step4_render_model` nor `model` (second and third
conjuncts). The raise happens before the step3 artifact is read, before
any adapter call, and outside the try/except that records failures, so no
error artifact is written; in particular this holds for a contact
directory whose `step3_ai.json` is valid with every required field
(fourth conjunct), where the claim promises a render-adapter invocation
and an error artifact on failure. -/
theorem c6_rerun_default_model_attribute_error :
    (∀ (render : List (String × Json) → Except String String)
        (step3Ai step3RawParsed : Option Json),
      rerun_step4_from_local_ai true none render step3Ai step3RawParsed =
        Except.error "AttributeError: OpenAIConfig has no attribute step4_render_model")
    ∧ openAIConfigAttrs.contains "step4_render_model" = false
    ∧ openAIConfigAttrs.contains "model" = false
    ∧ rerun_step4_from_local_ai true none renderOk (some (Json.obj validFields)) none =
        Except.error "AttributeError: OpenAIConfig has no attribute step4_render_model"
    ∧ (validate_schema_min validFields).1 = true := by
  have h1 : ∀ (render : List (String × Json) → Except String String)
      (step3Ai step3RawParsed : Option Json),
      rerun_step4_from_local_ai true none render step3Ai step3RawParsed =
        Except.error "AttributeError: OpenAIConfig has no attribute step4_render_model" :=
    fun _ _ _ => rfl
  exact ⟨h1, by decide, by decide, h1 renderOk (some (Json.obj validFields)) none, by decide⟩

/-- Claim C7: for attempt `n`, positive base and ceiling, and a uniform
sample `u` in `[0, 1]`, the delay returned by `compute_backoff` minus its
jitter equals `min(ceiling, base * 2 ^ n)`; that raw value is
non-decreasing in `n` and never exceeds the ceiling; and the jitter lies
in `[0, 25%]` of the raw value. -/
theorem c7_compute_backoff_spec (n : Nat) (base maxS u : ℚ)
    (hbase : 0 < base) (hmax : 0 < maxS) (hu0 : 0 ≤ u) (hu1 : u ≤ 1) :
    compute_backoff n base maxS u - uniformJitter u (computeBackoffRaw n base maxS)
      = min maxS (base * 2 ^ n)
    ∧ computeBackoffRaw n base maxS ≤ computeBackoffRaw (n + 1) base maxS
    ∧ computeBackoffRaw n base maxS ≤ maxS
    ∧ 0 ≤ uniformJitter u (computeBackoffRaw n base maxS)
    ∧ uniformJitter u (computeBackoffRaw n base maxS)
        ≤ computeBackoffRaw n base maxS * (25 / 100) := by
  have hraw0 : 0 ≤ computeBackoffRaw n base maxS := by
    unfold computeBackoffRaw
    exact le_min hmax.le (by positivity)
  refine ⟨?_, ?_, min_le_left _ _, ?_, ?_⟩
  · unfold compute_backoff computeBackoffRaw
    ring
  · unfold computeBackoffRaw
    refine min_le_min (le_refl maxS) ?_
    have hpow : (2 : ℚ) ^ n ≤ 2 ^ (n + 1) :=
      pow_le_pow_right₀ (by norm_num) (Nat.le_succ n)
    exact mul_le_mul_of_nonneg_left hpow hbase.le
  · unfold uniformJitter
    positivity
  · unfold uniformJitter
    have h25 : 0 ≤ computeBackoffRaw n base maxS * (25 / 100) := by positivity
    exact mul_le_of_le_one_left h25 hu1

/-- Witness for C7 at attempt 2, base 4/5, ceiling 20, sample 1/3. -/
theorem c7_compute_backoff_spec_witness :
    compute_backoff 2 (4 / 5) 20 (1 / 3)
        - uniformJitter (1 / 3) (computeBackoffRaw 2 (4 / 5) 20)
      = min 20 ((4 / 5) * 2 ^ 2) :=
  (c7_compute_backoff_spec 2 (4 / 5) 20 (1 / 3)
    (by norm_num) (by norm_num) (by norm_num) (by norm_num)).1

/-- With an over-capacity cost, no refill ever covers it: the capped
token count stays below `cost` forever. -/
theorem acquireRun_never (cfg : RateLimitConfig) (cost : ℚ) (h : cfg.burst < cost) :
    ∀ (es : List ℚ) (t : ℚ), acquireRun cfg cost t es = none := by
  intro es
  induction es with
  | nil => intro t; rfl
  | cons e es ih =>
    intro t
    have hnot : ¬ cost ≤ refill cfg t e := by
      intro hc
      exact absurd (le_trans hc (min_le_left _ _)) (not_le.mpr h)
    simp [acquireRun, hnot, ih]

/-- Whenever the acquire loop succeeds, the remaining token count lies in
`[0, burst]`. -/
theorem acquireRun_bounds (cfg : RateLimitConfig) (cost : ℚ) (hc : 0 ≤ cost) :
    ∀ (es : List ℚ) (t t1 : ℚ), acquireRun cfg cost t es = some t1 →
      0 ≤ t1 ∧ t1 ≤ cfg.burst := by
  intro es
  induction es with
  | nil => intro t t1 hcontra; simp [acquireRun] at hcontra
  | cons e es ih =>
    intro t t1 hrun
    by_cases hcle : cost ≤ refill cfg t e
    · have hcap : refill cfg t e ≤ cfg.burst := min_le_left _ _
      simp [acquireRun, hcle] at hrun
      constructor
      · rw [← hrun]; linarith
      · rw [← hrun]; linarith
    · simp [acquireRun, hcle] at hrun
      exact ih _ _ hrun

/-- With positive rate and cost within capacity, honouring the requested
sleep makes the next refill cover the cost: the loop finishes at the
latest on its second iteration. -/
theorem acquireRun_terminates (cfg : RateLimitConfig) (cost t0 : ℚ) (hr : 0 < cfg.rate)
    (hcb : cost ≤ cfg.burst) (e0 e1 : ℚ) (es : List ℚ)
    (he1 : sleepFloor cfg (refill cfg t0 e0) cost ≤ e1) :
    (acquireRun cfg cost t0 (e0 :: e1 :: es)).isSome = true := by
  by_cases h1 : cost ≤ refill cfg t0 e0
  · simp [acquireRun, h1]
  · have hneed : neededSleep cfg (refill cfg t0 e0) cost
        = (cost - refill cfg t0 e0) / cfg.rate := by
      simp [neededSleep, hr]
    have hsleep : (cost - refill cfg t0 e0) / cfg.rate ≤ e1 := by
      calc (cost - refill cfg t0 e0) / cfg.rate
          ≤ sleepFloor cfg (refill cfg t0 e0) cost := by
            rw [sleepFloor, hneed]; exact le_max_right _ _
        _ ≤ e1 := he1
    have hmul : cost - refill cfg t0 e0 ≤ e1 * cfg.rate := by
      have := mul_le_mul_of_nonneg_right hsleep hr.le
      rwa [div_mul_cancel₀ _ hr.ne'] at this
    have h2 : cost ≤ refill cfg (refill cfg t0 e0) e1 := by
      have hdef : refill cfg (refill cfg t0 e0) e1
          = min cfg.burst (refill cfg t0 e0 + e1 * cfg.rate) := rfl
      rw [hdef]
      exact le_min hcb (by linarith)
    simp [acquireRun, h1, h2]

/-- Claim C8: for a bucket with positive refill rate and a non-negative
cost, (a) a cost above the burst capacity can never be served, whatever
elapsed times the loop observes (`acquire` never terminates); (b) a cost
within capacity is served at the latest on the second iteration once the
requested sleep is honoured (`acquire(cost)` terminates); and (c) any
successful acquisition leaves the token count in `[0, burst]`. -/
theorem c8_acquire_spec (cfg : RateLimitConfig) (cost t0 : ℚ)
    (hr : 0 < cfg.rate) (hc : 0 ≤ cost) :
    (cfg.burst < cost → ∀ es : List ℚ, acquireRun cfg cost t0 es = none)
    ∧ (cost ≤ cfg.burst → ∀ (e0 e1 : ℚ) (es : List ℚ),
        sleepFloor cfg (refill cfg t0 e0) cost ≤ e1 →
        (acquireRun cfg cost t0 (e0 :: e1 :: es)).isSome = true)
    ∧ (∀ (es : List ℚ) (t1 : ℚ), acquireRun cfg cost t0 es = some t1 →
        0 ≤ t1 ∧ t1 ≤ cfg.burst) :=
  ⟨fun h es => acquireRun_never cfg cost h es t0,
   fun hcb e0 e1 es he1 => acquireRun_terminates cfg cost t0 hr hcb e0 e1 es he1,
   fun es t1 h => acquireRun_bounds cfg cost hc es t0 t1 h⟩

/-- Witness for C8: a full bucket of rate 1 and burst 5 serves cost 1
within the first two observed iterations. -/
theorem c8_acquire_spec_witness :
    (acquireRun ⟨1, 5⟩ 1 5 [0, 1]).isSome = true :=
  (c8_acquire_spec ⟨1, 5⟩ 1 5 (by norm_num) (by norm_num)).2.1 (by norm_num) 0 1 []
    (by norm_num [sleepFloor, neededSleep, refill])

/-- Invariant preservation of the contact loop: starting from an
accumulator whose counters satisfy `errors ≤ done`, `duplicates ≤ done`
and whose remaining work fits into `total`, every progress event the fold
emits satisfies `progressOk`, and the fold adds exactly one `done` per
processed contact. -/
theorem stepRunner_fold_ok (o : Oracles) (emailMap : List (String × List String))
    (total : Nat) :
    ∀ (l : List (String × String)) (acc : RunnerAcc),
      acc.errors ≤ acc.done → acc.duplicates ≤ acc.done →
      acc.done + l.length ≤ total →
      (∀ p ∈ acc.emissions, progressOk p) →
      (∀ p ∈ (l.foldl (stepRunner o emailMap total) acc).emissions, progressOk p)
        ∧ (l.foldl (stepRunner o emailMap total) acc).done = acc.done + l.length := by
  intro l
  induction l with
  | nil =>
    intro acc h1 h2 h3 h4
    exact ⟨h4, by simp⟩
  | cons hd tl ih =>
    intro acc h1 h2 h3 h4
    obtain ⟨hdone1, herr1, hdup1⟩ :=
      processContact_incs o hd.1 hd.2 (lookupTrelloIds emailMap hd.1)
    have hlen : acc.done + 1 + tl.length ≤ total := by
      simp only [List.length_cons] at h3
      omega
    have hkey := ih (stepRunner o emailMap total acc hd)
      (by simp only [stepRunner]; omega)
      (by simp only [stepRunner]; omega)
      (by simp only [stepRunner]; omega)
      (by
        simp only [stepRunner]
        intro p hp
        rcases List.mem_append.mp hp with hp1 | hp2
        · rcases List.mem_append.mp hp1 with hp3 | hp4
          · exact h4 p hp3
          · by_cases hdup :
              (processContact o hd.1 hd.2 (lookupTrelloIds emailMap hd.1)).dupInc = 1
            · rw [if_pos hdup] at hp4
              have hpe : p = ⟨total, acc.done, acc.errors, acc.duplicates +
                  (processContact o hd.1 hd.2 (lookupTrelloIds emailMap hd.1)).dupInc⟩ := by
                simpa using hp4
              subst hpe
              refine ⟨h1, ?_, ?_⟩
              · show acc.done ≤ total
                omega
              · show acc.duplicates +
                  (processContact o hd.1 hd.2 (lookupTrelloIds emailMap hd.1)).dupInc ≤ total
                omega
            · rw [if_neg hdup] at hp4
              simp at hp4
        · have hpe : p = ⟨total,
              acc.done + (processContact o hd.1 hd.2 (lookupTrelloIds emailMap hd.1)).doneInc,
              acc.errors + (processContact o hd.1 hd.2 (lookupTrelloIds emailMap hd.1)).errInc,
              acc.duplicates +
                (processContact o hd.1 hd.2 (lookupTrelloIds emailMap hd.1)).dupInc⟩ := by
            simpa using hp2
          subst hpe
          refine ⟨?_, ?_, ?_⟩
          · show acc.errors + (processContact o hd.1 hd.2 (lookupTrelloIds emailMap hd.1)).errInc
              ≤ acc.done + (processContact o hd.1 hd.2 (lookupTrelloIds emailMap hd.1)).doneInc
            omega
          · show acc.done + (processContact o hd.1 hd.2 (lookupTrelloIds emailMap hd.1)).doneInc
              ≤ total
            omega
          · show acc.duplicates +
                (processContact o hd.1 hd.2 (lookupTrelloIds emailMap hd.1)).dupInc ≤ total
            omega)
    simp only [List.foldl_cons]
    refine ⟨hkey.1, ?_⟩
    rw [hkey.2]
    simp only [stepRunner, List.length_cons]
    omega

/-- Claim C9: in every run of the pipeline, every emitted progress event
satisfies `0 ≤ errors ≤ done ≤ total` and `0 ≤ duplicates ≤ total`
(the lower bounds are inherent to `Nat`), and when the runner finishes the
final `done` equals `total`. -/
theorem c9_progress_invariants (o : Oracles) (rows1 : List CsvRow) (rows2 : List Csv2Row) :
    (∀ p ∈ (run_pipeline_job o rows1 rows2).emissions, progressOk p)
    ∧ (run_pipeline_job o rows1 rows2).finalProgress.done =
        (run_pipeline_job o rows1 rows2).finalProgress.total := by
  have hkey := stepRunner_fold_ok o (buildEmailToTrello rows2) (countedRows rows1).length
    (countedRows rows1)
    ⟨0, 0, 0, [⟨(countedRows rows1).length, 0, 0, 0⟩], []⟩
    (by simp) (by simp) (by simp)
    (by
      intro p hp
      have hpe : p = ⟨(countedRows rows1).length, 0, 0, 0⟩ := by simpa using hp
      subst hpe
      exact ⟨Nat.le_refl 0, Nat.zero_le _, Nat.zero_le _⟩)
  constructor
  · intro p hp
    exact hkey.1 p (by simpa [run_pipeline_job] using hp)
  · simp only [run_pipeline_job]
    rw [hkey.2]
    simp

/-- Witness for C9: a concrete one-row job (whose single contact has no
Trello match) whose final progress event satisfies the invariant. -/
theorem c9_progress_invariants_witness : progressOk ⟨1, 1, 1, 0⟩ :=
  (c9_progress_invariants oraclesDown rows1Ex []).1 ⟨1, 1, 1, 0⟩ (by decide)

/-- Unfolding of the processed-row list over one csv1 row. -/
theorem countedRows_cons (r : CsvRow) (rs : List CsvRow) :
    countedRows (r :: rs) =
      (if normalize_email r.email = "" ∨ pyStrip r.hubspotId = "" then []
       else [(normalize_email r.email, pyStrip r.hubspotId)]) ++ countedRows rs := by
  simp only [countedRows, List.filterMap_cons]
  by_cases h : normalize_email r.email = "" ∨ pyStrip r.hubspotId = "" <;> simp [h]

/-- Filtering csv1 down to the qualifying rows first does not change the
processed row list. -/
theorem countedRows_filter_eq (rows : List CsvRow) :
    countedRows (rows.filter rowCounted) = countedRows rows := by
  induction rows with
  | nil => rfl
  | cons r rs ih =>
    by_cases h : normalize_email r.email = "" ∨ pyStrip r.hubspotId = ""
    · have hrc : rowCounted r = false := by simp [rowCounted, h]
      rw [List.filter_cons, hrc, countedRows_cons, if_pos h]
      simpa using ih
    · have hrc : rowCounted r = true := by simp [rowCounted, h]
      rw [List.filter_cons, hrc, if_pos rfl, countedRows_cons, countedRows_cons,
        if_neg h, ih]

/-- The number of processed rows equals the number of qualifying rows. -/
theorem countedRows_length (rows : List CsvRow) :
    (countedRows rows).length = (rows.filter rowCounted).length := by
  induction rows with
  | nil => rfl
  | cons r rs ih =>
    by_cases h : normalize_email r.email = "" ∨ pyStrip r.hubspotId = ""
    · have hrc : rowCounted r = false := by simp [rowCounted, h]
      rw [List.filter_cons, hrc, countedRows_cons, if_pos h]
      simpa using ih
    · have hrc : rowCounted r = true := by simp [rowCounted, h]
      rw [List.filter_cons, hrc, if_pos rfl, countedRows_cons, if_neg h]
      simp [ih]

/-- Claim C10: rows whose normalized email or stripped contact id is empty
are skipped entirely: the whole job trace (contacts, artifacts, progress
events, counters) over the raw csv1 rows equals the trace over only the
qualifying rows, and the job's `total` counter equals exactly the number
of rows with both fields non-empty. -/
theorem c10_skip_invalid_rows (o : Oracles) (rows1 : List CsvRow) (rows2 : List Csv2Row) :
    run_pipeline_job o (rows1.filter rowCounted) rows2 = run_pipeline_job o rows1 rows2
    ∧ (run_pipeline_job o rows1 rows2).finalProgress.total =
        (rows1.filter rowCounted).length := by
  constructor
  · simp only [run_pipeline_job, countedRows_filter_eq]
  · simp only [run_pipeline_job]
    exact countedRows_length rows1

end Spec2Proof
